import Mathlib

/-!
Shallow embedding of the background coordination core of the Real-Debrid
browser-extension client: the rate-limited API client (src/lib/api/client.ts),
the token lifecycle (src/lib/auth.ts together with getValidToken in the
background script), the torrent polling and notification engine and the
startPolling trigger management (background part of src/tabs/dashboard.tsx),
the typed message router (src/lib/messaging.ts), and the persistent storage
wrapper (the plasmohq variant of src/lib/storage.ts, the one the background
script imports).  Mutable module-level state is passed explicitly, network
calls are modelled by their outcomes, and times are integer milliseconds.
-/

namespace RDM

/-- Torrent status values, from src/lib/api/torrents.ts. -/
inductive TorrentStatus where
  | magnet_error
  | magnet_conversion
  | waiting_files_selection
  | queued
  | downloading
  | downloaded
  | error
  | virus
  | compressing
  | uploading
  | dead
deriving DecidableEq

/-- The fields of a torrent listing entry that the polling engine reads
(src/lib/api/torrents.ts, TorrentItem; the remaining fields are never
inspected by the background loop). -/
structure TorrentItem where
  id : String
  filename : String
  status : TorrentStatus
deriving DecidableEq

/-- Map.get on the insertion-ordered association list modelling the JS Map
knownTorrents of the background script. -/
def mapGet : List (String × TorrentStatus) → String → Option TorrentStatus
  | [], _ => none
  | kv :: rest, k => if kv.1 = k then some kv.2 else mapGet rest k

/-- Map.set: overwrite the binding of an existing key in place, otherwise
append a new binding at the end. -/
def mapSet : List (String × TorrentStatus) → String → TorrentStatus →
    List (String × TorrentStatus)
  | [], k, v => [(k, v)]
  | kv :: rest, k, v => if kv.1 = k then (k, v) :: rest else kv :: mapSet rest k v

/-- ACTIVE_STATUSES from the background script. -/
def ACTIVE_STATUSES : List TorrentStatus :=
  [TorrentStatus.magnet_conversion, TorrentStatus.queued, TorrentStatus.downloading,
   TorrentStatus.compressing, TorrentStatus.uploading]

/-- isActiveTorrent from the background script. -/
def isActiveTorrent (status : TorrentStatus) : Bool :=
  ACTIVE_STATUSES.contains status

/-- Loop state of one pollTorrents tick: the snapshot table, the set of ids
seen in the current listing (kept in insertion order), the completion
notifications emitted so far in this tick (ids of the torrents), and the
running active count. -/
structure PollAcc where
  table : List (String × TorrentStatus)
  currentIds : List String
  notified : List String
  activeCount : Nat
deriving DecidableEq

/-- One iteration of the for-loop of pollTorrents in the background script:
record the id, emit a completion notification when a previously known
non-downloaded torrent is now downloaded (showTorrentCompletedNotification
itself returns early when the notifications-enabled preference is off),
update the snapshot table, and count active torrents. -/
def pollTorrentsStep (notificationsEnabled : Bool) (acc : PollAcc) (t : TorrentItem) :
    PollAcc :=
  let currentIds := acc.currentIds ++ [t.id]
  let previousStatus := mapGet acc.table t.id
  let notified :=
    match previousStatus with
    | some prev =>
      if prev ≠ TorrentStatus.downloaded ∧ t.status = TorrentStatus.downloaded then
        if notificationsEnabled then acc.notified ++ [t.id] else acc.notified
      else acc.notified
    | none => acc.notified
  let table := mapSet acc.table t.id t.status
  let activeCount := if isActiveTorrent t.status then acc.activeCount + 1 else acc.activeCount
  { table := table, currentIds := currentIds, notified := notified, activeCount := activeCount }

/-- The deletion pass after the loop of pollTorrents: every table key absent
from the fetched listing is removed. -/
def pruneTable (table : List (String × TorrentStatus)) (currentIds : List String) :
    List (String × TorrentStatus) :=
  table.filter (fun kv => currentIds.contains kv.1)

/-- Result of one pollTorrents tick. -/
structure PollResult where
  table : List (String × TorrentStatus)
  notified : List String
  activeCount : Nat
deriving DecidableEq

/-- One full pollTorrents tick on an authenticated state with a successfully
fetched listing: the loop over the torrents followed by the pruning pass. -/
def pollTorrentsRun (notificationsEnabled : Bool) (table : List (String × TorrentStatus))
    (torrents : List TorrentItem) : PollResult :=
  let acc := torrents.foldl (pollTorrentsStep notificationsEnabled)
    { table := table, currentIds := [], notified := [], activeCount := 0 }
  { table := pruneTable acc.table acc.currentIds,
    notified := acc.notified,
    activeCount := acc.activeCount }

/-- Observable state of the polling trigger: whether the recurring alarm
exists and how many pollTorrents evaluations have been performed. -/
structure PollingState where
  alarmExists : Bool
  pollCount : Nat
deriving DecidableEq

/-- startPolling from the background script: without alarms support it
returns at once; if the recurring alarm already exists it returns at once,
before any poll; otherwise it performs one immediate pollTorrents
evaluation and creates the recurring alarm. -/
def startPolling (alarmsSupported : Bool) (s : PollingState) : PollingState :=
  if !alarmsSupported then s
  else if s.alarmExists then s
  else { alarmExists := true, pollCount := s.pollCount + 1 }

/-- Stored authentication data, from src/lib/auth.ts. -/
structure AuthData where
  accessToken : String
  refreshToken : String
  clientId : String
  clientSecret : String
  expiresAt : Int
deriving DecidableEq

/-- Response of the token endpoint, from src/lib/auth.ts. -/
structure TokenResponse where
  access_token : String
  refresh_token : String
  expires_in : Int
deriving DecidableEq

/-- isTokenExpired from src/lib/auth.ts: an unset (zero, JS-falsy) expiry
means the token never expires; otherwise expired when now has reached it. -/
def isTokenExpired (now : Int) (authData : AuthData) : Bool :=
  if authData.expiresAt = 0 then false
  else decide (authData.expiresAt ≤ now)

/-- The user profile fields the storage cache stores (src/lib/api/user.ts;
the cache logic never inspects them). -/
structure UserProfile where
  id : Int
  username : String
  email : String
deriving DecidableEq

/-- UserPreferences from src/lib/storage.ts (theme and download directory
omitted, never read by the core). -/
structure UserPreferences where
  notificationsEnabled : Bool
  autoUnrestrict : Bool
  autoSelectFiles : Bool
  autoScanEnabled : Bool
deriving DecidableEq

/-- CachedData from src/lib/storage.ts. -/
structure CachedData where
  userProfile : Option UserProfile
  userProfileTimestamp : Option Int
  supportedDomains : Option (List String)
  supportedDomainsTimestamp : Option Int
  hostsRegex : Option (List String)
  hostsRegexTimestamp : Option Int
deriving DecidableEq

/-- The empty cache record, what getCache yields when nothing is stored. -/
def emptyCachedData : CachedData :=
  { userProfile := none, userProfileTimestamp := none, supportedDomains := none,
    supportedDomainsTimestamp := none, hostsRegex := none, hostsRegexTimestamp := none }

/-- DEFAULT_PREFERENCES from src/lib/storage.ts. -/
def DEFAULT_PREFERENCES : UserPreferences :=
  { notificationsEnabled := true, autoUnrestrict := false,
    autoSelectFiles := true, autoScanEnabled := false }

/-- The three storage records the core owns (authData in local storage,
preferences in sync storage, cache in local storage); none means the key
is absent. -/
structure StorageState where
  authData : Option AuthData
  preferences : Option UserPreferences
  cache : Option CachedData
deriving DecidableEq

/-- CACHE_TTL from src/lib/storage.ts: five minutes in milliseconds. -/
def CACHE_TTL : Int := 5 * 60 * 1000

/-- storage.getAuthData. -/
def storageGetAuthData (s : StorageState) : Option AuthData :=
  s.authData

/-- storage.setAuthData. -/
def storageSetAuthData (s : StorageState) (a : AuthData) : StorageState :=
  { s with authData := some a }

/-- storage.clearCache: removes the cache record. -/
def storageClearCache (s : StorageState) : StorageState :=
  { s with cache := none }

/-- storage.removeAuthData: removes the auth record and clears the cache. -/
def storageRemoveAuthData (s : StorageState) : StorageState :=
  storageClearCache { s with authData := none }

/-- storage.getCache: the stored cache record or the empty object. -/
def storageGetCache (s : StorageState) : CachedData :=
  s.cache.getD emptyCachedData

/-- storage.getPreferences: the stored preferences merged over defaults. -/
def storageGetPreferences (s : StorageState) : UserPreferences :=
  s.preferences.getD DEFAULT_PREFERENCES

/-- storage.getCachedUserProfile: the cached profile when both the value and
a JS-truthy (nonzero) capture timestamp are present and fresh. -/
def getCachedUserProfile (now : Int) (s : StorageState) : Option UserProfile :=
  let cache := storageGetCache s
  match cache.userProfile, cache.userProfileTimestamp with
  | some p, some ts => if ts ≠ 0 ∧ now - ts < CACHE_TTL then some p else none
  | _, _ => none

/-- storage.getCachedDomains. -/
def getCachedDomains (now : Int) (s : StorageState) : Option (List String) :=
  let cache := storageGetCache s
  match cache.supportedDomains, cache.supportedDomainsTimestamp with
  | some d, some ts => if ts ≠ 0 ∧ now - ts < CACHE_TTL then some d else none
  | _, _ => none

/-- storage.getCachedHostsRegex. -/
def getCachedHostsRegex (now : Int) (s : StorageState) : Option (List String) :=
  let cache := storageGetCache s
  match cache.hostsRegex, cache.hostsRegexTimestamp with
  | some r, some ts => if ts ≠ 0 ∧ now - ts < CACHE_TTL then some r else none
  | _, _ => none

deriving instance DecidableEq for Except

/-- Outcome of a getValidToken call: the storage state afterwards, whether a
refresh request was attempted, and the returned token or thrown message. -/
structure GetTokenOutcome where
  store : StorageState
  refreshAttempted : Bool
  result : Except String String
deriving DecidableEq

/-- getValidToken from the background script.  The outcome of the
refreshAccessToken network call is passed in as a parameter: ok carries the
token endpoint response, error a thrown failure. -/
def getValidToken (now : Int) (refreshOutcome : Except String TokenResponse)
    (s : StorageState) : GetTokenOutcome :=
  match storageGetAuthData s with
  | none =>
    { store := s, refreshAttempted := false, result := Except.error "Not authenticated" }
  | some authData =>
    if isTokenExpired now authData then
      match refreshOutcome with
      | Except.ok tokenResponse =>
        let updatedAuthData : AuthData :=
          { authData with
            accessToken := tokenResponse.access_token,
            refreshToken := tokenResponse.refresh_token,
            expiresAt := now + tokenResponse.expires_in * 1000 }
        { store := storageSetAuthData s updatedAuthData, refreshAttempted := true,
          result := Except.ok updatedAuthData.accessToken }
      | Except.error _ =>
        { store := storageRemoveAuthData s, refreshAttempted := true,
          result := Except.error "Session expired. Please log in again." }
    else
      { store := s, refreshAttempted := false, result := Except.ok authData.accessToken }

/-- The JSON error payload shape of the remote API
(src/lib/api/client.ts, ApiError); both fields may be absent. -/
structure ApiErrorPayload where
  error : Option String
  error_code : Option Int
deriving DecidableEq

/-- RealDebridApiError from src/lib/api/client.ts. -/
structure RealDebridApiError where
  message : String
  status : Nat
  code : Option Int
deriving DecidableEq

/-- The facts about a fetch Response that the request function inspects:
HTTP status, status text, whether the content-type includes
application/json, and the body parsed as an error payload. -/
structure HttpResponse where
  status : Nat
  statusText : String
  hasJsonContentType : Bool
  errorBody : ApiErrorPayload
deriving DecidableEq

/-- Response.ok of the fetch API: status in the 200-299 range. -/
def respOk (status : Nat) : Bool :=
  decide (200 ≤ status) && decide (status < 300)

/-- Normalized result of a gateway request: the empty result object
substituted for 204/non-JSON successes, or the parsed JSON body. -/
inductive RequestOutcome where
  | emptyObject
  | jsonBody
deriving DecidableEq

/-- The response-normalization tail of request in src/lib/api/client.ts:
non-ok with a JSON payload throws the remote message (a JS-falsy message
falls back to the default) and optional code; non-ok without JSON throws a
message built from the HTTP status line; ok with 204 or without JSON
content resolves to the empty object; otherwise the parsed body. -/
def handleResponse (r : HttpResponse) : Except RealDebridApiError RequestOutcome :=
  if !respOk r.status then
    if r.hasJsonContentType then
      Except.error
        { message :=
            match r.errorBody.error with
            | some m => if m = "" then "Unknown API error" else m
            | none => "Unknown API error",
          status := r.status,
          code := r.errorBody.error_code }
    else
      Except.error
        { message := "HTTP " ++ toString r.status ++ ": " ++ r.statusText,
          status := r.status, code := none }
  else if r.status = 204 || !r.hasJsonContentType then
    Except.ok RequestOutcome.emptyObject
  else
    Except.ok RequestOutcome.jsonBody

/-- A JS value as it can occur in a request body object. -/
inductive JsValue where
  | undef
  | jsNull
  | str (s : String)
  | num (n : Int)
  | boolean (b : Bool)
deriving DecidableEq

/-- String(value) of JS for the values above. -/
def jsToString : JsValue → String
  | JsValue.undef => "undefined"
  | JsValue.jsNull => "null"
  | JsValue.str s => s
  | JsValue.num n => toString n
  | JsValue.boolean b => if b then "true" else "false"

/-- The body-encoding loop of request in src/lib/api/client.ts for a
non-FormData object body: iterate over the entries in order and append
(key, String(value)) to the URLSearchParams exactly when the value is
neither undefined nor null. -/
def encodeFormBody (entries : List (String × JsValue)) : List (String × String) :=
  entries.foldl
    (fun params kv =>
      if kv.2 ≠ JsValue.undef ∧ kv.2 ≠ JsValue.jsNull then
        params ++ [(kv.1, jsToString kv.2)]
      else params)
    []

/-- The response envelope of the message protocol
(src/lib/messaging.ts, MessageResponse). -/
structure MessageResponseE (T : Type) where
  success : Bool
  data : Option T
  error : Option String
  errorCode : Option Int
deriving DecidableEq

/-- A value thrown inside a handler: a RealDebridApiError, some other Error
with a message, or a non-Error value. -/
inductive JsError where
  | api (e : RealDebridApiError)
  | generic (message : String)
  | nonError
deriving DecidableEq

/-- error.message as the catch clause of createMessageListener reads it: a
non-Error rejection value has no message property (undefined). -/
def jsErrorMessage : JsError → Option String
  | JsError.api e => some e.message
  | JsError.generic m => some m
  | JsError.nonError => none

/-- withErrorHandling from the background script: resolve to a success
envelope, or map a RealDebridApiError to its message and code, any other
Error to its message, and a non-Error throw to the fixed fallback text. -/
def withErrorHandling (T : Type) (fn : Except JsError T) : MessageResponseE T :=
  match fn with
  | Except.ok data =>
    { success := true, data := some data, error := none, errorCode := none }
  | Except.error (JsError.api e) =>
    { success := false, data := none, error := some e.message, errorCode := e.code }
  | Except.error (JsError.generic m) =>
    { success := false, data := none, error := some m, errorCode := none }
  | Except.error JsError.nonError =>
    { success := false, data := none, error := some "Unknown error", errorCode := none }

/-- The dispatch wrapper of createMessageListener in src/lib/messaging.ts:
none models an unregistered message type (left to other listeners); for a
registered handler the resolved envelope is sent, and a rejection is
converted to a failure envelope carrying error.message. -/
def dispatchMessage (T : Type) (handler : Option (Except JsError (MessageResponseE T))) :
    Option (MessageResponseE T) :=
  match handler with
  | none => none
  | some (Except.ok resp) => some resp
  | some (Except.error e) =>
    some { success := false, data := none, error := jsErrorMessage e, errorCode := none }

/-- RATE_LIMIT from src/lib/api/client.ts. -/
def RATE_LIMIT : Nat := 250

/-- RATE_WINDOW_MS from src/lib/api/client.ts. -/
def RATE_WINDOW_MS : Int := 60000

/-- The cleanup filter applied to requestTimestamps: keep the timestamps
still inside the trailing window at the given time. -/
def filterWindow (now : Int) (timestamps : List Int) : List Int :=
  timestamps.filter (fun ts => now - ts < RATE_WINDOW_MS)

/-- The record getRateLimitStatus returns. -/
structure RateLimitStatus where
  remaining : Int
  resetInMs : Int
deriving DecidableEq

/-- getRateLimitStatus from src/lib/api/client.ts.  The cleaned timestamp
list is returned as well, because the source reassigns the module-level
requestTimestamps to the filtered array; a JS-falsy (zero) oldest
timestamp yields a zero reset time. -/
def getRateLimitStatus (now : Int) (timestamps : List Int) :
    List Int × RateLimitStatus :=
  let cleaned := filterWindow now timestamps
  let resetRaw :=
    match cleaned.head? with
    | some oldest => if oldest = 0 then 0 else RATE_WINDOW_MS - (now - oldest)
    | none => 0
  (cleaned, { remaining := (RATE_LIMIT : Int) - cleaned.length, resetInMs := max 0 resetRaw })

/-- trackRequest from src/lib/api/client.ts: clean the window, then record
the present moment. -/
def trackRequest (now : Int) (timestamps : List Int) : List Int :=
  filterWindow now timestamps ++ [now]

/-- Outcome of one request passing through the rate limiter. -/
structure RLStepResult where
  stored : List Int
  dispatch : Int
  waited : Bool
deriving DecidableEq

/-- One request through the gateway in the sequential model: waitForRateLimit
at arrival time t suspends for resetInMs + 100 ms exactly when no budget
remains, and trackRequest then records the dispatch moment. -/
def rlStep (timestamps : List Int) (t : Int) : RLStepResult :=
  let st := getRateLimitStatus t timestamps
  if st.2.remaining ≤ 0 then
    let d := t + st.2.resetInMs + 100
    { stored := trackRequest d st.1, dispatch := d, waited := true }
  else
    { stored := trackRequest t st.1, dispatch := t, waited := false }

/-- State of a sequential run of gateway calls: the recorded timestamps, the
time of the latest dispatch, and a log of (arrival, dispatch, waited). -/
structure RLRunState where
  stored : List Int
  clock : Int
  log : List (Int × Int × Bool)
deriving DecidableEq

/-- Issue the next call gap milliseconds after the previous dispatch. -/
def rlRunStep (st : RLRunState) (gap : Int) : RLRunState :=
  let t := st.clock + gap
  let r := rlStep st.stored t
  { stored := r.stored, clock := r.dispatch, log := st.log ++ [(t, r.dispatch, r.waited)] }

/-- A sequential run of gateway calls starting at time t0 with the given
inter-arrival gaps (all-zero gaps model calls issued back to back, as fast
as the limiter allows). -/
def rlRun (t0 : Int) (gaps : List Int) : RLRunState :=
  gaps.foldl rlRunStep { stored := [], clock := t0, log := [] }

/-- Invariant of the sequential rate-limiter run: the recorded timestamps
are sorted, positive, no later than the clock and inside the trailing
window, and never more numerous than the budget. -/
def RLInv (st : RLRunState) : Prop :=
  st.stored.Sorted (· ≤ ·) ∧ 0 < st.clock ∧
  (∀ x ∈ st.stored, 0 < x ∧ x ≤ st.clock ∧ st.clock - x < RATE_WINDOW_MS) ∧
  st.stored.length ≤ RATE_LIMIT

theorem string_append_ne_empty (s t : String) (h : s ≠ "") : s ++ t ≠ "" := by
  intro he
  apply h
  apply String.ext
  have hd := congrArg String.data he
  rw [String.data_append] at hd
  exact (List.append_eq_nil.mp hd).1

theorem encodeFormBody_foldl (entries : List (String × JsValue)) :
    ∀ init : List (String × String),
      entries.foldl
        (fun params kv =>
          if kv.2 ≠ JsValue.undef ∧ kv.2 ≠ JsValue.jsNull then
            params ++ [(kv.1, jsToString kv.2)]
          else params)
        init =
      init ++ (entries.filter
          (fun kv => kv.2 ≠ JsValue.undef ∧ kv.2 ≠ JsValue.jsNull)).map
        (fun kv => (kv.1, jsToString kv.2)) := by
  induction entries with
  | nil => intro init; simp
  | cons kv rest ih =>
    intro init
    by_cases h : kv.2 ≠ JsValue.undef ∧ kv.2 ≠ JsValue.jsNull
    · simp [List.foldl_cons, h, ih, List.filter_cons]
    · simp [List.foldl_cons, h, ih, List.filter_cons]

/-- C9: the URL-encoded form body built by the gateway for a non-FormData
object body holds exactly the entries whose value is neither undefined nor
null, in order, each value converted by String(value); undefined and null
entries are omitted entirely. -/
theorem c9_encode_form_body (entries : List (String × JsValue)) :
    encodeFormBody entries =
      (entries.filter
          (fun kv => kv.2 ≠ JsValue.undef ∧ kv.2 ≠ JsValue.jsNull)).map
        (fun kv => (kv.1, jsToString kv.2)) := by
  simpa [encodeFormBody] using encodeFormBody_foldl entries []

/-- C10: removeAuthData clears the cached-data record in addition to the
auth record — afterwards the auth read is absent and the three cache
getters all return null at every read time — while the stored user
preferences are left unchanged. -/
theorem c10_removeAuthData_clears_cache (s : StorageState) (now : Int) :
    storageGetAuthData (storageRemoveAuthData s) = none ∧
    getCachedUserProfile now (storageRemoveAuthData s) = none ∧
    getCachedDomains now (storageRemoveAuthData s) = none ∧
    getCachedHostsRegex now (storageRemoveAuthData s) = none ∧
    (storageRemoveAuthData s).preferences = s.preferences ∧
    storageGetPreferences (storageRemoveAuthData s) = storageGetPreferences s :=
  ⟨rfl, rfl, rfl, rfl, rfl, rfl⟩

/-- C6 counterexample: with the recurring alarm already present, a call to
startPolling performs zero pollTorrents evaluations — not the one
immediate one-shot evaluation the claim describes — so the claim is false
at this input. -/
theorem c6_counterexample :
    (startPolling true { alarmExists := true, pollCount := 0 }).pollCount = 0 ∧
    (0 : Nat) ≠ 1 := by
  decide

/-- C6 amended: starting polling is idempotent, and when the recurring
trigger already exists a second call to startPolling is a complete no-op —
it performs no poll evaluation, creates no second trigger, and leaves the
state unchanged (the source returns before its pollTorrents call). -/
theorem c6_startPolling_idempotent (alarmsSupported : Bool) (s : PollingState) :
    startPolling alarmsSupported (startPolling alarmsSupported s) =
      startPolling alarmsSupported s ∧
    (s.alarmExists = true → startPolling alarmsSupported s = s) := by
  constructor
  · cases alarmsSupported with
    | false => rfl
    | true =>
      by_cases h : s.alarmExists
      · simp [startPolling, h]
      · simp [startPolling, h]
  · intro h
    cases alarmsSupported <;> simp [startPolling, h]

/-- Witness for C6: the amended statement evaluated on a concrete state
whose alarm already exists. -/
theorem c6_witness :
    startPolling true (startPolling true { alarmExists := true, pollCount := 0 }) =
      startPolling true { alarmExists := true, pollCount := 0 } ∧
    startPolling true { alarmExists := true, pollCount := 0 } =
      { alarmExists := true, pollCount := 0 } :=
  ⟨(c6_startPolling_idempotent true { alarmExists := true, pollCount := 0 }).1,
   (c6_startPolling_idempotent true { alarmExists := true, pollCount := 0 }).2 rfl⟩

theorem handleResponse_error_message_ne_empty (r : HttpResponse) (e : RealDebridApiError)
    (h : handleResponse r = Except.error e) : e.message ≠ "" := by
  cases hok : respOk r.status with
  | true =>
    by_cases h204 : (r.status = 204 || !r.hasJsonContentType) = true
    · simp [handleResponse, hok, h204] at h
    · simp [handleResponse, hok, h204] at h
  | false =>
    cases hj : r.hasJsonContentType with
    | true =>
      simp [handleResponse, hok, hj] at h
      cases hme : r.errorBody.error with
      | none =>
        rw [hme] at h
        simp at h
        rw [← h]
        show ("Unknown API error" : String) ≠ ""
        decide
      | some m =>
        rw [hme] at h
        by_cases hm : m = ""
        · simp [hm] at h
          rw [← h]
          show ("Unknown API error" : String) ≠ ""
          decide
        · simp [hm] at h
          rw [← h]
          exact hm
    | false =>
      simp [handleResponse, hok, hj] at h
      rw [← h]
      exact string_append_ne_empty _ _
        (string_append_ne_empty _ _ (string_append_ne_empty _ _ (by decide)))

/-- C8: gateway response normalization — a non-success status with a JSON
payload raises the remote message and optional numeric code; a non-success
status without JSON raises a message built from the HTTP status line; a
success status with no JSON content (204 or a non-JSON content type)
resolves to the empty result object rather than failing. -/
theorem c8_response_normalization (r : HttpResponse) (m : String) :
    (respOk r.status = false → r.hasJsonContentType = true →
      r.errorBody.error = some m → m ≠ "" →
      handleResponse r =
        Except.error { message := m, status := r.status, code := r.errorBody.error_code }) ∧
    (respOk r.status = false → r.hasJsonContentType = false →
      handleResponse r =
        Except.error
          { message := "HTTP " ++ toString r.status ++ ": " ++ r.statusText,
            status := r.status, code := none }) ∧
    (respOk r.status = true → (r.status = 204 ∨ r.hasJsonContentType = false) →
      handleResponse r = Except.ok RequestOutcome.emptyObject) := by
  refine ⟨?_, ?_, ?_⟩
  · intro hok hj he hm
    simp [handleResponse, hok, hj, he, hm]
  · intro hok hj
    simp [handleResponse, hok, hj]
  · intro hok hcond
    have hn : (r.status = 204 || !r.hasJsonContentType) = true := by
      rcases hcond with h204 | hj
      · simp [h204]
      · simp [hj]
    simp [handleResponse, hok, hn]

/-- Witness for C8: a 404 with a JSON error payload raises the remote
message and code. -/
theorem c8_witness :
    handleResponse
        { status := 404, statusText := "Not Found", hasJsonContentType := true,
          errorBody := { error := some "bad_token", error_code := some 8 } } =
      Except.error { message := "bad_token", status := 404, code := some 8 } :=
  (c8_response_normalization
      { status := 404, statusText := "Not Found", hasJsonContentType := true,
        errorBody := { error := some "bad_token", error_code := some 8 } }
      "bad_token").1 (by decide) rfl rfl (by decide)

/-- C7: a registered handler whose promise rejects with a failure raised by
the gateway is answered by the dispatch wrapper with a
success-false envelope carrying a non-empty error string — the rejection
never escapes the router and the request is never left unanswered — and
withErrorHandling maps the same failure to the corresponding envelope. -/
theorem c7_router_error_envelope (T : Type) (r : HttpResponse) (e : RealDebridApiError)
    (h : handleResponse r = Except.error e) :
    dispatchMessage T (some (Except.error (JsError.api e))) =
      some { success := false, data := none, error := some e.message, errorCode := none } ∧
    e.message ≠ "" ∧
    withErrorHandling T (Except.error (JsError.api e)) =
      { success := false, data := none, error := some e.message, errorCode := e.code } :=
  ⟨rfl, handleResponse_error_message_ne_empty r e h, rfl⟩

/-- Witness for C7: a handler failing on a 500 response without a usable
remote message is answered with the fallback non-empty error string. -/
theorem c7_witness :
    dispatchMessage Nat (some (Except.error (JsError.api
        { message := "Unknown API error", status := 500, code := none }))) =
      some
        { success := false, data := none, error := some "Unknown API error",
          errorCode := none } ∧
    ("Unknown API error" : String) ≠ "" := by
  have h := c7_router_error_envelope Nat
    { status := 500, statusText := "Server Error", hasJsonContentType := true,
      errorBody := { error := none, error_code := none } }
    { message := "Unknown API error", status := 500, code := none } (by decide)
  exact ⟨h.1, h.2.1⟩

theorem getValidToken_eq_of_some (now : Int) (ro : Except String TokenResponse)
    (s : StorageState) (a : AuthData) (hget : storageGetAuthData s = some a) :
    getValidToken now ro s =
      if isTokenExpired now a then
        match ro with
        | Except.ok tr =>
          let updated : AuthData :=
            { a with
              accessToken := tr.access_token,
              refreshToken := tr.refresh_token,
              expiresAt := now + tr.expires_in * 1000 }
          { store := storageSetAuthData s updated, refreshAttempted := true,
            result := Except.ok updated.accessToken }
        | Except.error _ =>
          { store := storageRemoveAuthData s, refreshAttempted := true,
            result := Except.error "Session expired. Please log in again." }
      else { store := s, refreshAttempted := false, result := Except.ok a.accessToken } := by
  unfold getValidToken
  rw [hget]

/-- C3: when the stored credential has expired and the refresh request
fails, getValidToken deletes the stored credential entirely — a subsequent
read returns absent — and fails with the session-expired error. -/
theorem c3_refresh_failure_purges (now : Int) (s : StorageState) (a : AuthData) (msg : String)
    (hget : storageGetAuthData s = some a)
    (hexp : isTokenExpired now a = true) :
    storageGetAuthData (getValidToken now (Except.error msg) s).store = none ∧
    (getValidToken now (Except.error msg) s).result =
      Except.error "Session expired. Please log in again." := by
  rw [getValidToken_eq_of_some now (Except.error msg) s a hget]
  simp [hexp, storageRemoveAuthData, storageClearCache, storageGetAuthData]

/-- Witness for C3: a concrete expired credential and a failing refresh. -/
theorem c3_witness :
    storageGetAuthData (getValidToken 10 (Except.error "network down")
        { authData :=
            some
              { accessToken := "tok", refreshToken := "ref", clientId := "cid",
                clientSecret := "sec", expiresAt := 5 },
          preferences := none, cache := none }).store = none ∧
    (getValidToken 10 (Except.error "network down")
        { authData :=
            some
              { accessToken := "tok", refreshToken := "ref", clientId := "cid",
                clientSecret := "sec", expiresAt := 5 },
          preferences := none, cache := none }).result =
      Except.error "Session expired. Please log in again." :=
  c3_refresh_failure_purges 10
    { authData :=
        some
          { accessToken := "tok", refreshToken := "ref", clientId := "cid",
            clientSecret := "sec", expiresAt := 5 },
      preferences := none, cache := none }
    { accessToken := "tok", refreshToken := "ref", clientId := "cid",
      clientSecret := "sec", expiresAt := 5 }
    "network down" rfl (by decide)

/-- C4: getValidToken never returns an access token whose stored nonzero
expiry lies in the past (given that the token endpoint reports a
nonnegative lifetime); with an unset (zero) expiry the access token is
returned unchanged and no refresh is attempted; and when no refresh is
needed two calls in immediate succession return the identical token. -/
theorem c4_no_stale_token (now : Int) (refreshOutcome : Except String TokenResponse)
    (s : StorageState) (a : AuthData)
    (hwf : ∀ tr : TokenResponse, refreshOutcome = Except.ok tr → 0 ≤ tr.expires_in)
    (hget : storageGetAuthData s = some a) :
    (∀ tok : String, ∀ a2 : AuthData,
        (getValidToken now refreshOutcome s).result = Except.ok tok →
        storageGetAuthData (getValidToken now refreshOutcome s).store = some a2 →
        a2.accessToken = tok ∧ (a2.expiresAt ≠ 0 → now ≤ a2.expiresAt)) ∧
    (a.expiresAt = 0 →
      getValidToken now refreshOutcome s =
        { store := s, refreshAttempted := false, result := Except.ok a.accessToken }) ∧
    (isTokenExpired now a = false →
      (getValidToken now refreshOutcome s).result = Except.ok a.accessToken ∧
      (getValidToken now refreshOutcome
          (getValidToken now refreshOutcome s).store).result = Except.ok a.accessToken) := by
  refine ⟨?_, ?_, ?_⟩
  · intro tok a2 hres hstore
    rw [getValidToken_eq_of_some now refreshOutcome s a hget] at hres hstore
    by_cases hexp : isTokenExpired now a
    · cases refreshOutcome with
      | ok tr =>
        have h0 := hwf tr rfl
        simp [hexp, storageSetAuthData, storageGetAuthData] at hres hstore
        constructor
        · rw [← hstore, ← hres]
        · intro _
          rw [← hstore]
          show now ≤ now + tr.expires_in * 1000
          omega
      | error msg =>
        simp [hexp, storageRemoveAuthData, storageClearCache, storageGetAuthData] at hstore
    · simp [hexp, storageGetAuthData] at hres hstore
      have hget2 : s.authData = some a := hget
      rw [hget2] at hstore
      simp at hstore
      constructor
      · rw [← hstore, ← hres]
      · intro hz
        rw [← hstore] at hz
        by_cases h0 : a.expiresAt = 0
        · exact absurd h0 hz
        · simp [isTokenExpired, h0] at hexp
          rw [← hstore]
          omega
  · intro hz
    have hf : isTokenExpired now a = false := by simp [isTokenExpired, hz]
    rw [getValidToken_eq_of_some now refreshOutcome s a hget]
    simp [hf]
  · intro hexp
    have h1 : getValidToken now refreshOutcome s =
        { store := s, refreshAttempted := false, result := Except.ok a.accessToken } := by
      rw [getValidToken_eq_of_some now refreshOutcome s a hget]
      simp [hexp]
    have h2 : (getValidToken now refreshOutcome s).store = s := by rw [h1]
    refine ⟨by rw [h1], ?_⟩
    rw [h2, h1]

/-- Witness for C4: a credential with no declared expiry is returned
unchanged, with no refresh attempted. -/
theorem c4_witness :
    getValidToken 100 (Except.ok { access_token := "n", refresh_token := "nr", expires_in := 60 })
        { authData :=
            some
              { accessToken := "t", refreshToken := "r", clientId := "c",
                clientSecret := "k", expiresAt := 0 },
          preferences := none, cache := none } =
      { store :=
          { authData :=
              some
                { accessToken := "t", refreshToken := "r", clientId := "c",
                  clientSecret := "k", expiresAt := 0 },
            preferences := none, cache := none },
        refreshAttempted := false, result := Except.ok "t" } :=
  (c4_no_stale_token 100
      (Except.ok { access_token := "n", refresh_token := "nr", expires_in := 60 })
      { authData :=
          some
            { accessToken := "t", refreshToken := "r", clientId := "c",
              clientSecret := "k", expiresAt := 0 },
        preferences := none, cache := none }
      { accessToken := "t", refreshToken := "r", clientId := "c",
        clientSecret := "k", expiresAt := 0 }
      (by intro tr htr; cases htr; decide) rfl).2.1 rfl

theorem mapGet_mapSet_ne (m : List (String × TorrentStatus)) (k k2 : String)
    (v : TorrentStatus) (h : k ≠ k2) :
    mapGet (mapSet m k v) k2 = mapGet m k2 := by
  induction m with
  | nil => simp [mapSet, mapGet, h]
  | cons kv rest ih =>
    by_cases hk : kv.1 = k
    · have hne : kv.1 ≠ k2 := by rw [hk]; exact h
      simp [mapSet, mapGet, hk, hne, h]
    · simp [mapSet, mapGet, hk, ih]

theorem pollStep_notified_count_ne (ne : Bool) (acc : PollAcc) (t : TorrentItem) (i : String)
    (h : t.id ≠ i) :
    ((pollTorrentsStep ne acc t).notified).count i = (acc.notified).count i := by
  unfold pollTorrentsStep
  cases mapGet acc.table t.id with
  | none => rfl
  | some prev =>
    by_cases hc : prev ≠ TorrentStatus.downloaded ∧ t.status = TorrentStatus.downloaded
    · cases ne with
      | false => simp [hc]
      | true => simp [hc, List.count_append, List.count_cons, h]
    · simp [hc]

theorem pollStep_notified_count_self (acc : PollAcc) (t : TorrentItem) (prev : TorrentStatus)
    (hget : mapGet acc.table t.id = some prev) (hprev : prev ≠ TorrentStatus.downloaded)
    (hst : t.status = TorrentStatus.downloaded) :
    ((pollTorrentsStep true acc t).notified).count t.id = (acc.notified).count t.id + 1 := by
  unfold pollTorrentsStep
  rw [hget]
  simp [hprev, hst, List.count_append]

theorem pollStep_notified_of_none (ne : Bool) (acc : PollAcc) (t : TorrentItem)
    (hget : mapGet acc.table t.id = none) :
    (pollTorrentsStep ne acc t).notified = acc.notified := by
  unfold pollTorrentsStep
  rw [hget]

theorem pollStep_table (ne : Bool) (acc : PollAcc) (t : TorrentItem) :
    (pollTorrentsStep ne acc t).table = mapSet acc.table t.id t.status :=
  rfl

theorem pollFold_notified_count_not_mem (ne : Bool) (ts : List TorrentItem) (i : String)
    (h : i ∉ ts.map (fun x => x.id)) :
    ∀ acc : PollAcc,
      ((ts.foldl (pollTorrentsStep ne) acc).notified).count i = (acc.notified).count i := by
  induction ts with
  | nil => intro acc; rfl
  | cons t rest ih =>
    intro acc
    simp only [List.map_cons, List.mem_cons] at h
    push_neg at h
    rw [List.foldl_cons, ih (h.2), pollStep_notified_count_ne ne acc t i (fun he => h.1 he.symm)]

theorem pollFold_notify_once (ts : List TorrentItem) :
    ∀ acc : PollAcc, ∀ t : TorrentItem, ∀ prev : TorrentStatus,
      (ts.map (fun x => x.id)).Nodup → t ∈ ts →
      mapGet acc.table t.id = some prev → prev ≠ TorrentStatus.downloaded →
      t.status = TorrentStatus.downloaded →
      ((ts.foldl (pollTorrentsStep true) acc).notified).count t.id =
        (acc.notified).count t.id + 1 := by
  induction ts with
  | nil =>
    intro acc t prev _ hmem
    cases hmem
  | cons t0 rest ih =>
    intro acc t prev hnd hmem hget hprev hst
    rw [List.foldl_cons]
    simp only [List.map_cons, List.nodup_cons] at hnd
    rcases List.mem_cons.mp hmem with heq | hmem2
    · subst heq
      rw [pollFold_notified_count_not_mem true rest t.id hnd.1]
      exact pollStep_notified_count_self acc t prev hget hprev hst
    · have hne : t0.id ≠ t.id := by
        intro he
        apply hnd.1
        rw [he]
        exact List.mem_map_of_mem (fun x => x.id) hmem2
      have hget2 : mapGet (pollTorrentsStep true acc t0).table t.id = some prev := by
        rw [pollStep_table, mapGet_mapSet_ne acc.table t0.id t.id t0.status hne]
        exact hget
      rw [ih (pollTorrentsStep true acc t0) t prev hnd.2 hmem2 hget2 hprev hst]
      rw [pollStep_notified_count_ne true acc t0 t.id hne]

theorem pollFold_notify_none_prior (ts : List TorrentItem) :
    ∀ acc : PollAcc, ∀ t : TorrentItem,
      (ts.map (fun x => x.id)).Nodup → t ∈ ts →
      mapGet acc.table t.id = none →
      ((ts.foldl (pollTorrentsStep true) acc).notified).count t.id =
        (acc.notified).count t.id := by
  induction ts with
  | nil =>
    intro acc t _ hmem
    cases hmem
  | cons t0 rest ih =>
    intro acc t hnd hmem hget
    rw [List.foldl_cons]
    simp only [List.map_cons, List.nodup_cons] at hnd
    rcases List.mem_cons.mp hmem with heq | hmem2
    · subst heq
      rw [pollFold_notified_count_not_mem true rest t.id hnd.1]
      rw [pollStep_notified_of_none true acc t hget]
    · have hne : t0.id ≠ t.id := by
        intro he
        apply hnd.1
        rw [he]
        exact List.mem_map_of_mem (fun x => x.id) hmem2
      have hget2 : mapGet (pollTorrentsStep true acc t0).table t.id = none := by
        rw [pollStep_table, mapGet_mapSet_ne acc.table t0.id t.id t0.status hne]
        exact hget
      rw [ih (pollTorrentsStep true acc t0) t hnd.2 hmem2 hget2]
      rw [pollStep_notified_count_ne true acc t0 t.id hne]

theorem pollStep_notified_disabled (acc : PollAcc) (t : TorrentItem) :
    (pollTorrentsStep false acc t).notified = acc.notified := by
  unfold pollTorrentsStep
  cases mapGet acc.table t.id with
  | none => rfl
  | some prev =>
    by_cases hc : prev ≠ TorrentStatus.downloaded ∧ t.status = TorrentStatus.downloaded
    · simp [hc]
    · simp [hc]

theorem pollFold_notified_disabled (ts : List TorrentItem) :
    ∀ acc : PollAcc, (ts.foldl (pollTorrentsStep false) acc).notified = acc.notified := by
  induction ts with
  | nil => intro acc; rfl
  | cons t rest ih =>
    intro acc
    rw [List.foldl_cons, ih, pollStep_notified_disabled]

/-- C1: in one polling tick over a listing with distinct job ids, a job whose
snapshot-table entry holds a non-terminal (non-downloaded) previous status
and whose fetched status is downloaded triggers exactly one completion
notification when notifications are enabled; a job with no prior table
entry triggers zero notifications on its first observation; and with the
notifications-enabled preference off no notification is emitted at all. -/
theorem c1_completion_notified_once (table : List (String × TorrentStatus))
    (torrents : List TorrentItem) (t : TorrentItem) (prev : TorrentStatus)
    (hnd : (torrents.map (fun x => x.id)).Nodup) (hmem : t ∈ torrents) :
    (mapGet table t.id = some prev → prev ≠ TorrentStatus.downloaded →
      t.status = TorrentStatus.downloaded →
      ((pollTorrentsRun true table torrents).notified).count t.id = 1) ∧
    (mapGet table t.id = none →
      ((pollTorrentsRun true table torrents).notified).count t.id = 0) ∧
    (pollTorrentsRun false table torrents).notified = [] := by
  refine ⟨?_, ?_, ?_⟩
  · intro hget hprev hst
    have h := pollFold_notify_once torrents
      { table := table, currentIds := [], notified := [], activeCount := 0 }
      t prev hnd hmem hget hprev hst
    simpa [pollTorrentsRun] using h
  · intro hget
    have h := pollFold_notify_none_prior torrents
      { table := table, currentIds := [], notified := [], activeCount := 0 }
      t hnd hmem hget
    simpa [pollTorrentsRun] using h
  · have h := pollFold_notified_disabled torrents
      { table := table, currentIds := [], notified := [], activeCount := 0 }
    simpa [pollTorrentsRun] using h

/-- Witness for C1: a downloading-to-downloaded transition next to an
unrelated job produces exactly one notification for that job. -/
theorem c1_witness :
    ((pollTorrentsRun true [("x", TorrentStatus.downloading)]
        [{ id := "x", filename := "f", status := TorrentStatus.downloaded },
         { id := "y", filename := "g", status := TorrentStatus.downloaded }]).notified).count
      "x" = 1 :=
  (c1_completion_notified_once [("x", TorrentStatus.downloading)]
      [{ id := "x", filename := "f", status := TorrentStatus.downloaded },
       { id := "y", filename := "g", status := TorrentStatus.downloaded }]
      { id := "x", filename := "f", status := TorrentStatus.downloaded }
      TorrentStatus.downloading (by decide) (by decide)).1 rfl (by decide) rfl

theorem pollFold_currentIds (ne : Bool) (ts : List TorrentItem) :
    ∀ acc : PollAcc,
      (ts.foldl (pollTorrentsStep ne) acc).currentIds =
        acc.currentIds ++ ts.map (fun x => x.id) := by
  induction ts with
  | nil => intro acc; simp
  | cons t rest ih =>
    intro acc
    rw [List.foldl_cons, ih]
    simp [pollTorrentsStep]

theorem pollFold_activeCount (ne : Bool) (ts : List TorrentItem) :
    ∀ acc : PollAcc,
      (ts.foldl (pollTorrentsStep ne) acc).activeCount =
        acc.activeCount + (ts.filter (fun x => isActiveTorrent x.status)).length := by
  induction ts with
  | nil => intro acc; simp
  | cons t rest ih =>
    intro acc
    rw [List.foldl_cons, ih]
    by_cases ha : isActiveTorrent t.status
    · simp [pollTorrentsStep, ha, List.filter_cons]
      omega
    · simp [pollTorrentsStep, ha, List.filter_cons]

theorem mapGet_pruneTable_not_mem (m : List (String × TorrentStatus)) (ids : List String)
    (i : String) (h : i ∉ ids) :
    mapGet (pruneTable m ids) i = none := by
  induction m with
  | nil => rfl
  | cons kv rest ih =>
    unfold pruneTable at ih ⊢
    simp only [List.filter_cons]
    by_cases hc : ids.contains kv.1 = true
    · have hne : kv.1 ≠ i := by
        intro he
        apply h
        rw [← he]
        simpa using hc
      simp only [hc, if_true]
      simp only [mapGet, hne, if_false]
      exact ih
    · simp only [hc, Bool.false_eq_true, if_false]
      simpa using ih

/-- C5: a job id present in the snapshot table but absent from the fetched
listing is removed from the table by the end of the tick, and the active
count of the tick is exactly the number of listed jobs with an active
status, to which the absent id contributes nothing. -/
theorem c5_stale_entry_pruned (ne : Bool) (table : List (String × TorrentStatus))
    (torrents : List TorrentItem) (i : String)
    (_hin : (mapGet table i).isSome = true)
    (habs : i ∉ torrents.map (fun x => x.id)) :
    mapGet (pollTorrentsRun ne table torrents).table i = none ∧
    (pollTorrentsRun ne table torrents).activeCount =
      (torrents.filter (fun x => isActiveTorrent x.status)).length := by
  have hc : (torrents.foldl (pollTorrentsStep ne)
      { table := table, currentIds := [], notified := [], activeCount := 0 }).currentIds =
      torrents.map (fun x => x.id) := by
    simpa using pollFold_currentIds ne torrents
      { table := table, currentIds := [], notified := [], activeCount := 0 }
  constructor
  · have h := mapGet_pruneTable_not_mem
      (torrents.foldl (pollTorrentsStep ne)
        { table := table, currentIds := [], notified := [], activeCount := 0 }).table
      (torrents.foldl (pollTorrentsStep ne)
        { table := table, currentIds := [], notified := [], activeCount := 0 }).currentIds
      i (by rw [hc]; exact habs)
    simpa [pollTorrentsRun] using h
  · have h := pollFold_activeCount ne torrents
      { table := table, currentIds := [], notified := [], activeCount := 0 }
    simpa [pollTorrentsRun] using h

/-- Witness for C5: a stale table entry disappears and does not count. -/
theorem c5_witness :
    mapGet (pollTorrentsRun true [("a", TorrentStatus.downloading)]
        [{ id := "b", filename := "f", status := TorrentStatus.downloading }]).table "a" =
      none ∧
    (pollTorrentsRun true [("a", TorrentStatus.downloading)]
        [{ id := "b", filename := "f", status := TorrentStatus.downloading }]).activeCount =
      1 := by
  have h := c5_stale_entry_pruned true [("a", TorrentStatus.downloading)]
      [{ id := "b", filename := "f", status := TorrentStatus.downloading }] "a" rfl (by decide)
  exact ⟨h.1, by rw [h.2]; decide⟩

theorem mem_filterWindow (now : Int) (l : List Int) (x : Int) :
    x ∈ filterWindow now l ↔ x ∈ l ∧ now - x < RATE_WINDOW_MS := by
  simp [filterWindow]

theorem filterWindow_sorted (now : Int) (l : List Int) (h : l.Pairwise (· ≤ ·)) :
    (filterWindow now l).Pairwise (· ≤ ·) :=
  List.Pairwise.filter _ h

theorem getRateLimitStatus_remaining_eq (t : Int) (ts : List Int) :
    (getRateLimitStatus t ts).2.remaining =
      (RATE_LIMIT : Int) - (filterWindow t ts).length :=
  rfl

theorem getRateLimitStatus_fst_eq (t : Int) (ts : List Int) :
    (getRateLimitStatus t ts).1 = filterWindow t ts :=
  rfl

theorem getRateLimitStatus_reset_eq (t : Int) (ts : List Int) (o : Int)
    (hh : (filterWindow t ts).head? = some o) (h0 : o ≠ 0) :
    (getRateLimitStatus t ts).2.resetInMs = max 0 (RATE_WINDOW_MS - (t - o)) := by
  simp only [getRateLimitStatus]
  rw [hh]
  simp [h0]

theorem rlStep_eq_pos (ts : List Int) (t : Int)
    (hr : (getRateLimitStatus t ts).2.remaining ≤ 0) :
    rlStep ts t =
      { stored := trackRequest (t + (getRateLimitStatus t ts).2.resetInMs + 100)
          (getRateLimitStatus t ts).1,
        dispatch := t + (getRateLimitStatus t ts).2.resetInMs + 100,
        waited := true } := by
  simp only [rlStep]
  rw [if_pos hr]

theorem rlStep_eq_neg (ts : List Int) (t : Int)
    (hr : ¬ (getRateLimitStatus t ts).2.remaining ≤ 0) :
    rlStep ts t =
      { stored := trackRequest t (getRateLimitStatus t ts).1,
        dispatch := t, waited := false } := by
  simp only [rlStep]
  rw [if_neg hr]

theorem trackRequest_inv (l : List Int) (t d : Int)
    (hs : l.Pairwise (· ≤ ·)) (hpos : ∀ x ∈ l, 0 < x) (hle : ∀ x ∈ l, x ≤ t)
    (htd : t ≤ d) (hd : 0 < d) :
    ((trackRequest d l).Pairwise (· ≤ ·)) ∧
    (∀ x ∈ trackRequest d l, 0 < x ∧ x ≤ d ∧ d - x < RATE_WINDOW_MS) ∧
    (trackRequest d l).length = (filterWindow d l).length + 1 := by
  have hW : (0 : Int) < RATE_WINDOW_MS := by decide
  refine ⟨?_, ?_, ?_⟩
  · apply List.pairwise_append.mpr
    refine ⟨filterWindow_sorted d l hs, List.pairwise_singleton _ _, ?_⟩
    intro x hx y hy
    have hxl : x ∈ l := ((mem_filterWindow d l x).mp hx).1
    have hyd : y = d := by simpa using hy
    subst hyd
    exact le_trans (hle x hxl) htd
  · intro x hx
    rcases List.mem_append.mp hx with h1 | h1
    · obtain ⟨hxl, hxw⟩ := (mem_filterWindow d l x).mp h1
      exact ⟨hpos x hxl, le_trans (hle x hxl) htd, hxw⟩
    · have hxd : x = d := by simpa using h1
      subst hxd
      exact ⟨hd, le_refl x, by omega⟩
  · simp [trackRequest]

theorem rlStep_inv (ts : List Int) (t : Int)
    (hs : ts.Pairwise (· ≤ ·)) (hpos : ∀ x ∈ ts, 0 < x) (hle : ∀ x ∈ ts, x ≤ t)
    (hlen : ts.length ≤ RATE_LIMIT) (ht : 0 < t) :
    ((rlStep ts t).stored.Pairwise (· ≤ ·)) ∧
    (∀ x ∈ (rlStep ts t).stored,
      0 < x ∧ x ≤ (rlStep ts t).dispatch ∧ (rlStep ts t).dispatch - x < RATE_WINDOW_MS) ∧
    (rlStep ts t).stored.length ≤ RATE_LIMIT ∧
    t ≤ (rlStep ts t).dispatch := by
  have hW : (0 : Int) < RATE_WINDOW_MS := by decide
  have hRL : RATE_LIMIT = 250 := rfl
  have hmemf : ∀ x ∈ filterWindow t ts, x ∈ ts ∧ t - x < RATE_WINDOW_MS :=
    fun x hx => (mem_filterWindow t ts x).mp hx
  have hsf : (filterWindow t ts).Pairwise (· ≤ ·) := filterWindow_sorted t ts hs
  have hlf : (filterWindow t ts).length ≤ ts.length := List.length_filter_le _ _
  by_cases hr : (getRateLimitStatus t ts).2.remaining ≤ 0
  · have hr2 : (RATE_LIMIT : Int) - ((filterWindow t ts).length : Int) ≤ 0 := by
      rw [← getRateLimitStatus_remaining_eq]
      exact hr
    have hlen250 : (filterWindow t ts).length = RATE_LIMIT := by
      rw [hRL] at hr2 hlen ⊢
      omega
    obtain ⟨o, rest, ho⟩ : ∃ o rest, filterWindow t ts = o :: rest := by
      cases hfw : filterWindow t ts with
      | nil =>
        rw [hfw] at hlen250
        simp [hRL] at hlen250
      | cons o rest => exact ⟨o, rest, rfl⟩
    have homem : o ∈ filterWindow t ts := by
      rw [ho]
      exact List.mem_cons_self o rest
    have hots : o ∈ ts := (hmemf o homem).1
    have howin : t - o < RATE_WINDOW_MS := (hmemf o homem).2
    have hopos : 0 < o := hpos o hots
    have hhead : (filterWindow t ts).head? = some o := by rw [ho]; rfl
    have hreset : (getRateLimitStatus t ts).2.resetInMs = RATE_WINDOW_MS - (t - o) := by
      rw [getRateLimitStatus_reset_eq t ts o hhead (by omega)]
      rw [max_eq_right (by omega)]
    rw [rlStep_eq_pos ts t hr]
    rw [hreset, getRateLimitStatus_fst_eq]
    set d : Int := t + (RATE_WINDOW_MS - (t - o)) + 100 with hdd
    have hdo : d = o + RATE_WINDOW_MS + 100 := by rw [hdd]; ring
    have htd : t ≤ d := by omega
    have hdpos : 0 < d := by omega
    have hnot : ¬ (d - o < RATE_WINDOW_MS) := by omega
    have hti := trackRequest_inv (filterWindow t ts) t d hsf
      (fun x hx => hpos x (hmemf x hx).1) (fun x hx => hle x (hmemf x hx).1) htd hdpos
    refine ⟨hti.1, hti.2.1, ?_, htd⟩
    have hfd : filterWindow d (filterWindow t ts) = filterWindow d rest := by
      rw [ho]
      simp [filterWindow, List.filter_cons, hnot]
    have h1 := hti.2.2
    have h2 : (filterWindow d rest).length ≤ rest.length := List.length_filter_le _ _
    have h3 : rest.length + 1 = RATE_LIMIT := by
      rw [ho] at hlen250
      simpa using hlen250
    show (trackRequest d (filterWindow t ts)).length ≤ RATE_LIMIT
    rw [h1, hfd]
    omega
  · have hr2 : ¬ ((RATE_LIMIT : Int) - ((filterWindow t ts).length : Int) ≤ 0) := by
      rw [← getRateLimitStatus_remaining_eq]
      exact hr
    have hti := trackRequest_inv (filterWindow t ts) t t hsf
      (fun x hx => hpos x (hmemf x hx).1) (fun x hx => hle x (hmemf x hx).1) le_rfl ht
    rw [rlStep_eq_neg ts t hr]
    rw [getRateLimitStatus_fst_eq]
    refine ⟨hti.1, hti.2.1, ?_, le_rfl⟩
    have h1 := hti.2.2
    have h2 : (filterWindow t (filterWindow t ts)).length ≤ (filterWindow t ts).length :=
      List.length_filter_le _ _
    show (trackRequest t (filterWindow t ts)).length ≤ RATE_LIMIT
    rw [hRL] at hr2 ⊢
    omega

theorem rlRunStep_inv (st : RLRunState) (gap : Int) (hg : 0 ≤ gap) (h : RLInv st) :
    RLInv (rlRunStep st gap) := by
  obtain ⟨hs, hc, hmem, hlen⟩ := h
  have hpos : ∀ x ∈ st.stored, 0 < x := fun x hx => (hmem x hx).1
  have hle : ∀ x ∈ st.stored, x ≤ st.clock + gap := by
    intro x hx
    have := (hmem x hx).2.1
    omega
  have ht : 0 < st.clock + gap := by omega
  have hstep := rlStep_inv st.stored (st.clock + gap) hs hpos hle hlen ht
  refine ⟨hstep.1, ?_, hstep.2.1, hstep.2.2.1⟩
  have h2 := hstep.2.2.2
  show 0 < (rlStep st.stored (st.clock + gap)).dispatch
  omega

theorem rlFold_inv (gaps : List Int) :
    ∀ st : RLRunState, (∀ g ∈ gaps, 0 ≤ g) → RLInv st →
      RLInv (gaps.foldl rlRunStep st) := by
  induction gaps with
  | nil =>
    intro st _ h
    exact h
  | cons g rest ih =>
    intro st hg h
    rw [List.foldl_cons]
    exact ih (rlRunStep st g) (fun x hx => hg x (List.mem_cons_of_mem g hx))
      (rlRunStep_inv st g (hg g (List.mem_cons_self g rest)) h)

theorem rlRun_init_inv (t0 : Int) (h0 : 0 < t0) :
    RLInv { stored := [], clock := t0, log := [] } := by
  refine ⟨List.Pairwise.nil, h0, ?_, ?_⟩
  · intro x hx
    cases hx
  · simp

theorem rlFold_log_extend (gaps : List Int) :
    ∀ st : RLRunState, ∃ ext : List (Int × Int × Bool),
      (gaps.foldl rlRunStep st).log = st.log ++ ext := by
  induction gaps with
  | nil =>
    intro st
    exact ⟨[], by simp⟩
  | cons g rest ih =>
    intro st
    rw [List.foldl_cons]
    obtain ⟨ext, hext⟩ := ih (rlRunStep st g)
    refine ⟨(st.clock + g, (rlStep st.stored (st.clock + g)).dispatch,
      (rlStep st.stored (st.clock + g)).waited) :: ext, ?_⟩
    rw [hext]
    simp [rlRunStep]

theorem rlFold_log_length (gaps : List Int) :
    ∀ st : RLRunState,
      (gaps.foldl rlRunStep st).log.length = st.log.length + gaps.length := by
  induction gaps with
  | nil =>
    intro st
    simp
  | cons g rest ih =>
    intro st
    rw [List.foldl_cons, ih]
    simp [rlRunStep]
    omega

def RLLogOk (e : Int × Int × Bool) : Prop :=
  (e.2.2 = true → e.1 < e.2.1) ∧ (e.2.2 = false → e.2.1 = e.1)

theorem rlStep_waited_dispatch (ts : List Int) (t : Int) :
    ((rlStep ts t).waited = true → t < (rlStep ts t).dispatch) ∧
    ((rlStep ts t).waited = false → (rlStep ts t).dispatch = t) := by
  by_cases hr : (getRateLimitStatus t ts).2.remaining ≤ 0
  · rw [rlStep_eq_pos ts t hr]
    have h0 : (0 : Int) ≤ (getRateLimitStatus t ts).2.resetInMs := le_max_left 0 _
    constructor
    · intro _
      show t < t + (getRateLimitStatus t ts).2.resetInMs + 100
      omega
    · intro hw
      exact absurd hw (by simp)
  · rw [rlStep_eq_neg ts t hr]
    exact ⟨fun hw => absurd hw (by simp), fun _ => rfl⟩

theorem rlFold_log_ok (gaps : List Int) :
    ∀ st : RLRunState, (∀ e ∈ st.log, RLLogOk e) →
      ∀ e ∈ (gaps.foldl rlRunStep st).log, RLLogOk e := by
  induction gaps with
  | nil =>
    intro st h
    exact h
  | cons g rest ih =>
    intro st h
    rw [List.foldl_cons]
    apply ih
    intro e he
    have he2 : e ∈ st.log ++ [(st.clock + g, (rlStep st.stored (st.clock + g)).dispatch,
        (rlStep st.stored (st.clock + g)).waited)] := he
    rcases List.mem_append.mp he2 with h1 | h1
    · exact h e h1
    · have he3 : e = (st.clock + g, (rlStep st.stored (st.clock + g)).dispatch,
          (rlStep st.stored (st.clock + g)).waited) := by simpa using h1
      subst he3
      exact ⟨(rlStep_waited_dispatch _ _).1, (rlStep_waited_dispatch _ _).2⟩

/-- C2 amended: in the sequential model of the gateway, the recorded
request timestamps within the trailing 60-second window never number more
than the budget of 250; no call is dropped (each of the N calls is
dispatched and logged); a caller that finds the budget exhausted observes
a non-zero suspension before its dispatch, while a caller that finds
budget available dispatches at its arrival time with zero suspension — it
is not the case that every call from the (N − 250)-th onward observes a
non-zero suspension. -/
theorem c2_rate_limiter (t0 : Int) (gaps : List Int)
    (h0 : 0 < t0) (hg : ∀ g ∈ gaps, 0 ≤ g) :
    (∀ n : Nat, (rlRun t0 (gaps.take n)).stored.length ≤ RATE_LIMIT ∧
      ∀ x ∈ (rlRun t0 (gaps.take n)).stored,
        (rlRun t0 (gaps.take n)).clock - x < RATE_WINDOW_MS) ∧
    (rlRun t0 gaps).log.length = gaps.length ∧
    (∀ e ∈ (rlRun t0 gaps).log,
      (e.2.2 = true → e.1 < e.2.1) ∧ (e.2.2 = false → e.2.1 = e.1)) := by
  refine ⟨?_, ?_, ?_⟩
  · intro n
    have hinv := rlFold_inv (gaps.take n) { stored := [], clock := t0, log := [] }
      (fun g hgm => hg g (List.mem_of_mem_take hgm)) (rlRun_init_inv t0 h0)
    obtain ⟨_, _, hmem, hlen⟩ := hinv
    exact ⟨hlen, fun x hx => (hmem x hx).2.2⟩
  · have h := rlFold_log_length gaps { stored := [], clock := t0, log := [] }
    simpa [rlRun] using h
  · intro e he
    exact rlFold_log_ok gaps { stored := [], clock := t0, log := [] }
      (by intro e2 he2; cases he2) e he

/-- Witness for C2: a short run through the limiter keeps the recorded
window within budget and logs every call. -/
theorem c2_witness :
    (rlRun 1 (List.take 1 [0])).stored.length ≤ RATE_LIMIT ∧
    (rlRun 1 [0]).log.length = 1 := by
  have h := c2_rate_limiter 1 [0] (by decide) (by decide)
  exact ⟨(h.1 1).1, by simpa using h.2.1⟩

theorem rlRun_log_length (t0 : Int) (gaps : List Int) :
    (rlRun t0 gaps).log.length = gaps.length := by
  have h := rlFold_log_length gaps { stored := [], clock := t0, log := [] }
  simpa [rlRun] using h

theorem rlRun_log_head (t0 : Int) (g : Int) (gaps : List Int) :
    (rlRun t0 (g :: gaps)).log.head? =
      some (t0 + g, (rlStep [] (t0 + g)).dispatch, (rlStep [] (t0 + g)).waited) := by
  obtain ⟨ext, hext⟩ := rlFold_log_extend gaps
    (rlRunStep { stored := [], clock := t0, log := [] } g)
  show (gaps.foldl rlRunStep
      (rlRunStep { stored := [], clock := t0, log := [] } g)).log.head? = _
  rw [hext]
  simp [rlRunStep]

/-- C2 counterexample: in a back-to-back run of N = 251 calls (all
inter-arrival gaps zero, the fastest the sequential gateway allows), the
(N − 250) = 1st call is logged with dispatch equal to its arrival and
waited = false — zero suspension — refuting the claim that from the
(N − 250)-th call onward each call observes a non-zero suspension before
its request is dispatched. -/
theorem c2_counterexample :
    (rlRun 1 (List.replicate 251 0)).log.length = 251 ∧
    (rlRun 1 (List.replicate 251 0)).log.head? = some (1, 1, false) := by
  constructor
  · rw [rlRun_log_length, List.length_replicate]
  · rw [show List.replicate 251 (0 : Int) = 0 :: List.replicate 250 0 from rfl]
    rw [rlRun_log_head 1 0 (List.replicate 250 0)]
    decide

end RDM
